import Mathlib

/-!
Verification of the skin-condition analysis pipeline
(`src/services/skin_condition.py`, `src/app.py`, `src/controller/controller.py`).

The Python code is shallowly embedded: images are grids of 8-bit samples
(`Fin 256`), float arithmetic is modelled exactly over `ℚ`, fallible Python
code (KeyError / IndexError / raised ValueError) is modelled with
`Option` / `Except`, and the Flask handler's `try/except` dispatch is an
explicit match on the error kind.
-/

attribute [local semireducible] Rat.mul Rat.inv Rat.add Rat.sub Rat.ofScientific

/-! ## Definitions -/

/-- One pixel of the HSV conversion of an 8-bit BGR image.  OpenCV stores
each channel as an unsigned 8-bit sample (hue on the 0–180 scale). -/
structure HSV where
  h : Fin 256
  s : Fin 256
  v : Fin 256
  deriving DecidableEq

/-- Membership of one pixel in a `cv2.inRange lo hi` mask: every channel
lies between the corresponding bounds (inclusive on both ends). -/
def inRangePix (loH hiH loS hiS loV hiV : Nat) (p : HSV) : Bool :=
  decide (loH ≤ p.h.val ∧ p.h.val ≤ hiH ∧ loS ≤ p.s.val ∧ p.s.val ≤ hiS ∧
          loV ≤ p.v.val ∧ p.v.val ≤ hiV)

/-- The per-pixel mask of `detect_skin_in_image`: the bitwise OR of
`inRange(hsv, [0,20,70], [20,255,255])` and
`inRange(hsv, [170,20,70], [180,255,255])`. -/
def skinMaskPixel (p : HSV) : Bool :=
  inRangePix 0 20 20 255 70 255 p || inRangePix 170 180 20 255 70 255 p

/-- `cv2.countNonZero` on a boolean mask. -/
def countNonZero (mask : List Bool) : Nat :=
  mask.countP id

/-- `detect_skin_in_image` from `src/services/skin_condition.py`: build the
two masks over the HSV image, OR them, count the non-zero pixels, divide by
`shape[0] * shape[1]` and compare with the 1% threshold.  The image is its
flattened pixel list together with its height and width. -/
def detect_skin_in_image (height width : Nat) (pixels : List HSV) : Bool :=
  let mask := pixels.map skinMaskPixel
  let skin_pixels := countNonZero mask
  let total_pixels := height * width
  decide ((skin_pixels : ℚ) / (total_pixels : ℚ) > 1 / 100)

/-- The union-of-two-ranges pixel predicate exactly as the specification
words it: hue in [0,20] or hue in [170,180], with saturation ≥ 20 and
value ≥ 70. -/
def specSkinPixel (p : HSV) : Bool :=
  decide ((p.h.val ≤ 20 ∨ (170 ≤ p.h.val ∧ p.h.val ≤ 180)) ∧
          20 ≤ p.s.val ∧ 70 ≤ p.v.val)

/-- A 2×2 image whose pixels all have hue 5 (the low skin range). -/
def lowHueImage : List HSV :=
  List.replicate 4 ⟨5, 150, 200⟩

/-- A 2×2 image whose pixels all have hue 175 (the high, wrap-around skin
range). -/
def highHueImage : List HSV :=
  List.replicate 4 ⟨175, 150, 200⟩

/-- A decoded RGB image: an `height × width` grid of 3-channel 8-bit
samples.  The pixel accessor is total; only indices below the bounds are
ever read by the resize. -/
structure RGBImage where
  height : Nat
  width : Nat
  pixel : Nat → Nat → Fin 3 → Fin 256

/-- A pixel sample cast to `ℚ` (the `tf.convert_to_tensor(..., tf.float32)`
step; 8-bit integers convert exactly). -/
def pixQ (img : RGBImage) (y x : Nat) (c : Fin 3) : ℚ :=
  ((img.pixel y x c).val : ℚ)

/-- Source coordinate of output index `outIdx` for `tf.image.resize` with
half-pixel centers and output size 224: `(out + 0.5) * (in / 224) - 0.5`. -/
def srcCoord (outIdx inSize : Nat) : ℚ :=
  ((outIdx : ℚ) + 1 / 2) * ((inSize : ℚ) / 224) - 1 / 2

/-- Lower interpolation index: `max 0 ⌊s⌋`. -/
def lowIdx (s : ℚ) : Nat :=
  (max 0 ⌊s⌋).toNat

/-- Upper interpolation index: `min (inSize - 1) ⌈s⌉`, clamped at 0. -/
def highIdx (s : ℚ) (inSize : Nat) : Nat :=
  min (inSize - 1) (max 0 ⌈s⌉).toNat

/-- Linear interpolation `a + (b - a) * t` as in the bilinear kernel. -/
def lerp (a b t : ℚ) : ℚ :=
  a + (b - a) * t

/-- One output sample of `tf.image.resize(img, [224, 224])` (bilinear,
half-pixel centers): interpolate horizontally on the two rows, then
vertically, with fractional parts of the source coordinates. -/
def resizeSample (img : RGBImage) (i j : Nat) (c : Fin 3) : ℚ :=
  let sy := srcCoord i img.height
  let sx := srcCoord j img.width
  let y0 := lowIdx sy
  let y1 := highIdx sy img.height
  let x0 := lowIdx sx
  let x1 := highIdx sx img.width
  let ty := Int.fract sy
  let tx := Int.fract sx
  let top := lerp (pixQ img y0 x0 c) (pixQ img y0 x1 c) tx
  let bottom := lerp (pixQ img y1 x0 c) (pixQ img y1 x1 c) tx
  lerp top bottom ty

/-- `SkinConditionService.preprocess_for_model`: resize to 224×224, divide
by 127.5, subtract 1.0, and add a leading batch dimension of size 1.  The
result type is the tensor of shape (1, 224, 224, 3). -/
def preprocess_for_model (img : RGBImage) : Fin 1 → Fin 224 → Fin 224 → Fin 3 → ℚ :=
  fun _ i j c => resizeSample img i.val j.val c / (127.5 : ℚ) - 1.0

/-- A concrete 1×1 mid-gray image used to instantiate C2. -/
def grayImage : RGBImage :=
  ⟨1, 1, fun _ _ _ => ⟨128, by decide⟩⟩

/-- The label table `index_to_label` of `SkinConditionService.__init__`,
in index order.  Note the trailing space in the first entry, exactly as in
the source. -/
def labelTable : List String :=
  ["dry ", "acne", "pigmentation", "wrinkle", "dark circles", "normal"]

/-- Dictionary lookup `self.index_to_label[i]`; `none` models the KeyError
raised for an index outside 0–5. -/
def index_to_label (i : Nat) : Option String :=
  labelTable.get? i

/-- The list comprehension
`[(index_to_label[i], float(probabilities[i]) * 100) for i in range(len(probabilities))]`,
recursing over the index list; `none` models the KeyError on a missing
label. -/
def labelPairs (probabilities : List ℚ) : List Nat → Option (List (String × ℚ))
  | [] => some []
  | i :: rest =>
    match index_to_label i with
    | none => none
    | some label =>
      match labelPairs probabilities rest with
      | none => none
      | some tail => some ((label, probabilities.getD i 0 * 100) :: tail)

/-- Descending comparison on the percentage component, the sort key
`key=lambda x: x[1], reverse=True`.  `a` may stay before `b` exactly when
`b`'s percentage does not exceed `a`'s, which on ties keeps the original
(index) order — the stable behavior of Python's `sorted`. -/
def descBySnd (a b : String × ℚ) : Prop :=
  b.2 ≤ a.2

instance : DecidableRel descBySnd :=
  fun a b => inferInstanceAs (Decidable (b.2 ≤ a.2))

instance : IsTotal (String × ℚ) descBySnd :=
  ⟨fun a b => le_total b.2 a.2⟩

instance : IsTrans (String × ℚ) descBySnd :=
  ⟨fun _ _ _ h1 h2 => le_trans h2 h1⟩

/-- Fixed two-decimal rendering of a percentage, the `f"{prob:.2f}"` format
(rounding to the nearest hundredth). -/
def pctString (q : ℚ) : String :=
  let n := round (q * 100)
  let sign := if n < 0 then "-" else ""
  let m := n.natAbs
  sign ++ toString (m / 100) ++ "." ++
    (if m % 100 < 10 then "0" else "") ++ toString (m % 100)

/-- The dictionary returned by `get_predictions_dict`. -/
structure PredDict where
  top_condition : String
  confidence : ℚ
  all_conditions : List (String × ℚ)
  condition_list : List String
  sorted_predictions : List (String × ℚ)
  deriving DecidableEq

/-- `SkinConditionService.get_predictions_dict`: pair every probability
with its label as a percentage, sort descending by percentage with a
stable sort (Python's `sorted` with `reverse=True`), and read off the top
entry.  `none` models the two uncaught exceptions: the KeyError for a
vector longer than the label table and the IndexError of
`sorted_preds[0]` on an empty vector. -/
def get_predictions_dict (probabilities : List ℚ) : Option PredDict :=
  match labelPairs probabilities (List.range probabilities.length) with
  | none => none
  | some pairs =>
    let sorted_preds := List.insertionSort descBySnd pairs
    match sorted_preds with
    | [] => none
    | top :: _ =>
      some
        { top_condition := top.1
          confidence := top.2
          all_conditions := sorted_preds
          condition_list := sorted_preds.map (fun p => p.1 ++ ": " ++ pctString p.2 ++ "%")
          sorted_predictions := sorted_preds }

/-- The opaque classifier: the loaded model as a function from the
preprocessed tensor to the probability vector `preds[0]`. -/
def Classifier : Type :=
  (Fin 1 → Fin 224 → Fin 224 → Fin 3 → ℚ) → List ℚ

/-- `SkinConditionService.load_model`: if the stored handle is `None`, run
the loader (`tf.keras.models.load_model`); a loader failure is re-raised
as `ValueError("Model loading failed: ...")` and the handle stays `None`.
If the handle is already set it is returned unchanged and the loader is
not consulted.  Returns the raised-or-returned result and the new handle
state. -/
def load_model (loader : Except String Classifier) (model : Option Classifier) :
    Except String Classifier × Option Classifier :=
  match model with
  | some m => (Except.ok m, some m)
  | none =>
    match loader with
    | Except.ok m => (Except.ok m, some m)
    | Except.error e => (Except.error ("Model loading failed: " ++ e), none)

/-- A Python exception as seen by the Flask handler's `try/except`:
`ValueError` is caught separately from every other exception. -/
inductive PyError where
  | valueError (msg : String)
  | otherError (msg : String)
  deriving DecidableEq

/-- The image decoded by `cv2.imdecode`, with its two color-space views:
the HSV conversion consumed by the skin gate and the RGB array fed to the
model. -/
structure DecodedImage where
  height : Nat
  width : Nat
  hsv : List HSV
  rgb : RGBImage

/-- `SkinConditionService.predict_classes`: run the skin gate first and
raise `ValueError("No skin detected in the image")` when it fails; only
then load the model, preprocess the image and run inference.  The handle
state is threaded through. -/
def predict_classes (loader : Except String Classifier) (model : Option Classifier)
    (img : DecodedImage) : Except PyError (List ℚ) × Option Classifier :=
  if detect_skin_in_image img.height img.width img.hsv = false then
    (Except.error (PyError.valueError "No skin detected in the image"), model)
  else
    match load_model loader model with
    | (Except.error e, m2) => (Except.error (PyError.valueError e), m2)
    | (Except.ok f, m2) => (Except.ok (f (preprocess_for_model img.rgb)), m2)

/-- The JSON body of a successful `/api/analyze` response. -/
structure SuccessResponse where
  top_condition : String
  confidence : ℚ
  all_conditions : List (String × ℚ)
  recommendations : String
  deriving DecidableEq

/-- An HTTP response of `/api/analyze`: a success body, or
`({"error": message}, status)`. -/
inductive HttpResult where
  | ok (resp : SuccessResponse)
  | err (status : Nat) (message : String)
  deriving DecidableEq

/-- Python's `round(x, 2)`: the value rounded to the nearest hundredth. -/
def round2 (q : ℚ) : ℚ :=
  ((round (q * 100) : ℤ) : ℚ) / 100

/-- The keys of the `recommendations` table in `get_recommendations`. -/
def recommendationKeys : List String :=
  ["acne", "dry", "pigmentation", "wrinkle", "dark circles", "normal"]

/-- `get_recommendations`: look the lowercased condition up in the table,
falling back to the `"normal"` entry.  Modelled by the key of the entry
returned. -/
def get_recommendations_key (condition : String) : String :=
  if condition.toLower ∈ recommendationKeys then condition.toLower else "normal"

/-- The response formatting inside `analyze_skin`: strip the labels, round
the percentages to two decimals, and attach the recommendations for the
stripped top label. -/
def formatSuccess (results : PredDict) : SuccessResponse :=
  { top_condition := results.top_condition.trim
    confidence := round2 results.confidence
    all_conditions := results.all_conditions.map (fun kv => (kv.1.trim, round2 kv.2))
    recommendations := get_recommendations_key results.top_condition.trim }

/-- The `/api/analyze` handler `analyze_skin` after a successful decode:
run `predict_classes` and `get_predictions_dict`, format the response;
a raised `ValueError` is answered with its message and status 400, any
other exception with the generic message and status 500. -/
def analyze_skin (loader : Except String Classifier) (model : Option Classifier)
    (img : DecodedImage) : HttpResult × Option Classifier :=
  match predict_classes loader model img with
  | (Except.error (PyError.valueError m), m2) => (HttpResult.err 400 m, m2)
  | (Except.error (PyError.otherError _), m2) =>
      (HttpResult.err 500 "An error occurred during analysis", m2)
  | (Except.ok probs, m2) =>
    match get_predictions_dict probs with
    | none => (HttpResult.err 500 "An error occurred during analysis", m2)
    | some results => (HttpResult.ok (formatSuccess results), m2)

/-- The probability vector of the specification's ranking example. -/
def exampleProbs : List ℚ :=
  [1/10, 1/10, 1/10, 1/10, 1/10, 1/2]

/-- The dictionary `get_predictions_dict` produces for `exampleProbs`:
"normal" wins with 50%, the five 10% ties keep their index order (the sort
is stable). -/
def exampleDict : PredDict :=
  { top_condition := "normal"
    confidence := 50
    all_conditions :=
      [("normal", 50), ("dry ", 10), ("acne", 10), ("pigmentation", 10),
        ("wrinkle", 10), ("dark circles", 10)]
    condition_list :=
      ["normal: 50.00%", "dry : 10.00%", "acne: 10.00%", "pigmentation: 10.00%",
        "wrinkle: 10.00%", "dark circles: 10.00%"]
    sorted_predictions :=
      [("normal", 50), ("dry ", 10), ("acne", 10), ("pigmentation", 10),
        ("wrinkle", 10), ("dark circles", 10)] }

/-- A probability vector with an exact tie. -/
def tieProbs : List ℚ :=
  [1/10, 1/10]

/-- A 1×1 decoded image whose single HSV pixel is skin-colored. -/
def skinDecoded : DecodedImage :=
  ⟨1, 1, [⟨5, 150, 200⟩], ⟨1, 1, fun _ _ _ => ⟨200, by decide⟩⟩⟩

/-- A 1×1 decoded image whose single HSV pixel (hue 100, a green) is
outside both skin ranges. -/
def noSkinDecoded : DecodedImage :=
  ⟨1, 1, [⟨100, 30, 30⟩], ⟨1, 1, fun _ _ _ => ⟨0, by decide⟩⟩⟩

/-- A classifier stub used wherever a concrete loaded model is needed. -/
def stubClassifier : Classifier :=
  fun _ => [1, 0, 0, 0, 0, 0]

/-! ## Theorems -/

lemma skinMaskPixel_eq_spec (p : HSV) : skinMaskPixel p = specSkinPixel p := by
  have hs := p.s.isLt
  have hv := p.v.isLt
  rw [Bool.eq_iff_iff]
  simp only [skinMaskPixel, specSkinPixel, inRangePix, Bool.or_eq_true,
    decide_eq_true_eq]
  omega

/-- Claim C1: for every 3-channel color image, `detect_skin_in_image`
returns true if and only if the number of pixels in the union of the two
HSV skin ranges (hue in [0,20] or in [170,180], saturation ≥ 20,
value ≥ 70), divided by the total pixel count `height * width`, is strictly
greater than 0.01. -/
theorem detect_skin_iff_ratio (height width : Nat) (pixels : List HSV) :
    detect_skin_in_image height width pixels = true ↔
      ((pixels.countP specSkinPixel : ℚ) / ((height * width : Nat) : ℚ) > 1 / 100) := by
  have hfun : skinMaskPixel = specSkinPixel := funext skinMaskPixel_eq_spec
  simp only [detect_skin_in_image, countNonZero, List.countP_map, Function.id_comp,
    decide_eq_true_eq, hfun]

/-- Claim C6: the gate detects skin at both ends of the hue axis: an image
filled with hue-5 pixels of adequate saturation and value passes, and so
does an image filled with hue-175 pixels. -/
theorem detect_skin_both_hue_ends :
    detect_skin_in_image 2 2 lowHueImage = true ∧
    detect_skin_in_image 2 2 highHueImage = true := by
  constructor <;> decide

lemma lerp_nonneg {a b t : ℚ} (ht0 : 0 ≤ t) (ht1 : t ≤ 1)
    (ha : 0 ≤ a) (hb : 0 ≤ b) : 0 ≤ lerp a b t := by
  unfold lerp
  nlinarith

lemma lerp_le {a b t : ℚ} (ht0 : 0 ≤ t) (ht1 : t ≤ 1)
    (ha : a ≤ 255) (hb : b ≤ 255) : lerp a b t ≤ 255 := by
  unfold lerp
  nlinarith

lemma pixQ_nonneg (img : RGBImage) (y x : Nat) (c : Fin 3) :
    0 ≤ pixQ img y x c := by
  unfold pixQ
  positivity

lemma pixQ_le (img : RGBImage) (y x : Nat) (c : Fin 3) :
    pixQ img y x c ≤ 255 := by
  unfold pixQ
  exact_mod_cast Nat.lt_succ_iff.mp (img.pixel y x c).isLt

lemma resizeSample_nonneg (img : RGBImage) (i j : Nat) (c : Fin 3) :
    0 ≤ resizeSample img i j c := by
  unfold resizeSample
  apply lerp_nonneg (Int.fract_nonneg _) (Int.fract_lt_one _).le <;>
    apply lerp_nonneg (Int.fract_nonneg _) (Int.fract_lt_one _).le <;>
      apply pixQ_nonneg

lemma resizeSample_le (img : RGBImage) (i j : Nat) (c : Fin 3) :
    resizeSample img i j c ≤ 255 := by
  unfold resizeSample
  apply lerp_le (Int.fract_nonneg _) (Int.fract_lt_one _).le <;>
    apply lerp_le (Int.fract_nonneg _) (Int.fract_lt_one _).le <;>
      apply pixQ_le

/-- Claim C2: for every valid 3-channel image of positive height and width,
`preprocess_for_model` yields a tensor of shape (1, 224, 224, 3) — the type
of the result — whose every element equals `resized / 127.5 - 1.0` for the
deterministic 224×224 resize, and lies in `[-1, 1]`. -/
theorem preprocess_shape_and_range (img : RGBImage)
    (hH : 0 < img.height) (hW : 0 < img.width)
    (b : Fin 1) (i j : Fin 224) (c : Fin 3) :
    preprocess_for_model img b i j c = resizeSample img i.val j.val c / (127.5 : ℚ) - 1.0 ∧
    -1 ≤ preprocess_for_model img b i j c ∧ preprocess_for_model img b i j c ≤ 1 := by
  have hb0 := resizeSample_nonneg img i.val j.val c
  have hb1 := resizeSample_le img i.val j.val c
  have h1275 : (127.5 : ℚ) = 255 / 2 := by norm_num
  refine ⟨rfl, ?_, ?_⟩
  · unfold preprocess_for_model
    rw [h1275]
    have hq : 0 ≤ resizeSample img i.val j.val c / (255 / 2 : ℚ) :=
      div_nonneg hb0 (by norm_num)
    norm_num
    linarith
  · unfold preprocess_for_model
    rw [h1275]
    have hq : resizeSample img i.val j.val c / (255 / 2 : ℚ) ≤ 2 := by
      rw [div_le_iff₀ (by norm_num : (0:ℚ) < 255 / 2)]
      linarith
    norm_num
    linarith

/-- Witness for C2 at a concrete image and tensor position. -/
theorem preprocess_shape_and_range_witness :
    0 < grayImage.height ∧ 0 < grayImage.width ∧
    (preprocess_for_model grayImage 0 0 0 0 =
        resizeSample grayImage 0 0 0 / (127.5 : ℚ) - 1.0 ∧
      -1 ≤ preprocess_for_model grayImage 0 0 0 0 ∧
      preprocess_for_model grayImage 0 0 0 0 ≤ 1) :=
  ⟨by decide, by decide,
    preprocess_shape_and_range grayImage (by decide) (by decide) 0 0 0 0⟩

lemma example_eval : get_predictions_dict exampleProbs = some exampleDict := by
  decide

lemma labelPairs_none (p : List ℚ) {idxs : List Nat} {i : Nat}
    (hmem : i ∈ idxs) (hnone : index_to_label i = none) :
    labelPairs p idxs = none := by
  induction idxs with
  | nil => cases hmem
  | cons j rest ih =>
    rcases List.mem_cons.mp hmem with h | h
    · subst h
      simp only [labelPairs, hnone]
    · simp only [labelPairs, ih h]
      cases index_to_label j <;> rfl

lemma labelPairs_some_length (p : List ℚ) {idxs : List Nat}
    (h : ∀ i ∈ idxs, (index_to_label i).isSome = true) :
    ∃ ys, labelPairs p idxs = some ys ∧ ys.length = idxs.length := by
  induction idxs with
  | nil => exact ⟨[], rfl, rfl⟩
  | cons j rest ih =>
    obtain ⟨ys, hys, hlen⟩ := ih (fun i hi => h i (List.mem_cons_of_mem _ hi))
    have hj := h j (List.mem_cons_self _ _)
    obtain ⟨l, hl⟩ := Option.isSome_iff_exists.mp hj
    refine ⟨(l, p.getD j 0 * 100) :: ys, ?_, ?_⟩
    · simp only [labelPairs, hl, hys]
    · simp [hlen]

lemma labelPairs_mem (p : List ℚ) {idxs : List Nat} {ys : List (String × ℚ)}
    (h : labelPairs p idxs = some ys) {kv : String × ℚ} (hkv : kv ∈ ys) :
    ∃ i ∈ idxs, index_to_label i = some kv.1 ∧ kv.2 = p.getD i 0 * 100 := by
  induction idxs generalizing ys with
  | nil =>
    simp only [labelPairs, Option.some.injEq] at h
    subst h
    cases hkv
  | cons j rest ih =>
    simp only [labelPairs] at h
    cases hj : index_to_label j with
    | none =>
      simp only [hj] at h
      exact Option.noConfusion h
    | some l =>
      simp only [hj] at h
      cases hrest : labelPairs p rest with
      | none =>
        simp only [hrest] at h
        exact Option.noConfusion h
      | some tail =>
        simp only [hrest, Option.some.injEq] at h
        subst h
        rcases List.mem_cons.mp hkv with h1 | h1
        · subst h1
          exact ⟨j, List.mem_cons_self _ _, hj, rfl⟩
        · obtain ⟨i, hi, hlab, hval⟩ := ih hrest h1
          exact ⟨i, List.mem_cons_of_mem _ hi, hlab, hval⟩

lemma get_predictions_dict_inv (p : List ℚ) (d : PredDict)
    (h : get_predictions_dict p = some d) :
    ∃ pairs top rest,
      labelPairs p (List.range p.length) = some pairs ∧
      List.insertionSort descBySnd pairs = top :: rest ∧
      d.top_condition = top.1 ∧
      d.confidence = top.2 ∧
      d.all_conditions = top :: rest ∧
      d.sorted_predictions = top :: rest := by
  unfold get_predictions_dict at h
  cases hpairs : labelPairs p (List.range p.length) with
  | none =>
    simp only [hpairs] at h
    exact Option.noConfusion h
  | some pairs =>
    simp only [hpairs] at h
    cases hsort : List.insertionSort descBySnd pairs with
    | nil =>
      simp only [hsort] at h
      exact Option.noConfusion h
    | cons top rest =>
      simp only [hsort, Option.some.injEq] at h
      subst h
      exact ⟨pairs, top, rest, rfl, hsort, rfl, rfl, rfl, rfl⟩

lemma get_predictions_dict_sorted (p : List ℚ) (d : PredDict)
    (h : get_predictions_dict p = some d) :
    d.sorted_predictions.Sorted descBySnd := by
  obtain ⟨pairs, top, rest, _, hsort, _, _, _, hs⟩ := get_predictions_dict_inv p d h
  rw [hs, ← hsort]
  exact List.sorted_insertionSort descBySnd pairs

/-- Claim C3: for a probability vector whose length matches the label
table, the ranker's list is sorted in descending order of the percentage;
for `[0.1, 0.1, 0.1, 0.1, 0.1, 0.5]` the top condition is the label at
index 5, `"normal"`, with confidence 50. -/
theorem ranker_sorted_desc_and_top :
    (∀ (p : List ℚ) (d : PredDict), p.length = labelTable.length →
        get_predictions_dict p = some d → d.sorted_predictions.Sorted descBySnd) ∧
    (get_predictions_dict exampleProbs = some exampleDict ∧
      exampleDict.top_condition = "normal" ∧ exampleDict.confidence = 50) :=
  ⟨fun p d _ h => get_predictions_dict_sorted p d h, example_eval, rfl, rfl⟩

/-- Witness for C3 at the specification's example vector. -/
theorem ranker_sorted_desc_and_top_witness :
    exampleProbs.length = labelTable.length ∧
    exampleDict.sorted_predictions.Sorted descBySnd :=
  ⟨by decide,
    ranker_sorted_desc_and_top.1 exampleProbs exampleDict (by decide) example_eval⟩

/-- Claim C8: the ranker is deterministic: two calls on the same
probability vector (with the same label table) return identical results,
tie ordering included.  In this pure embedding the result is a function of
the vector alone. -/
theorem ranker_deterministic (p q : List ℚ) (h : p = q) :
    get_predictions_dict p = get_predictions_dict q := by
  rw [h]

/-- Witness for C8 on a vector with an exact tie. -/
theorem ranker_deterministic_witness :
    tieProbs = tieProbs ∧
    get_predictions_dict tieProbs = get_predictions_dict tieProbs :=
  ⟨rfl, ranker_deterministic tieProbs tieProbs rfl⟩

/-- Claim C10: the ranker's domain is vectors of length 1 through 6: the
empty vector fails (the `sorted_preds[0]` IndexError), any vector of
length 7 or more fails (the KeyError at index 6), and every length from 1
to 6 succeeds. -/
theorem ranker_domain :
    get_predictions_dict [] = none ∧
    (∀ p : List ℚ, 7 ≤ p.length → get_predictions_dict p = none) ∧
    (∀ p : List ℚ, 1 ≤ p.length → p.length ≤ 6 →
      (get_predictions_dict p).isSome = true) := by
  refine ⟨rfl, ?_, ?_⟩
  · intro p hp
    have h6 : (6 : Nat) ∈ List.range p.length := List.mem_range.mpr (by omega)
    have hnone : index_to_label 6 = none := rfl
    simp only [get_predictions_dict, labelPairs_none p h6 hnone]
  · intro p h1 h6
    have hall : ∀ i ∈ List.range p.length, (index_to_label i).isSome = true := by
      intro i hi
      have hilt : i < p.length := List.mem_range.mp hi
      have hi6 : i < 6 := by omega
      interval_cases i <;> rfl
    obtain ⟨ys, hys, hlen⟩ := labelPairs_some_length p hall
    rw [List.length_range] at hlen
    have hlensort : (List.insertionSort descBySnd ys).length = ys.length :=
      (List.perm_insertionSort descBySnd ys).length_eq
    simp only [get_predictions_dict, hys]
    cases hsort : List.insertionSort descBySnd ys with
    | nil =>
      rw [hsort] at hlensort
      simp only [List.length_nil] at hlensort
      omega
    | cons top rest => simp

/-- Witness for C10: a 7-long vector fails and a 1-long vector succeeds. -/
theorem ranker_domain_witness :
    (7 ≤ ([0, 0, 0, 0, 0, 0, 0] : List ℚ).length ∧
      get_predictions_dict [0, 0, 0, 0, 0, 0, 0] = none) ∧
    (1 ≤ ([1] : List ℚ).length ∧ ([1] : List ℚ).length ≤ 6 ∧
      (get_predictions_dict [1]).isSome = true) :=
  ⟨⟨by decide, ranker_domain.2.1 [0, 0, 0, 0, 0, 0, 0] (by decide)⟩,
    ⟨by decide, by decide, ranker_domain.2.2 [1] (by decide) (by decide)⟩⟩

/-- Claim C7: in the analyze response the top condition and every
`all_conditions` key are trimmed labels and every value is the percentage
rounded to two decimals, while the ranker itself sorted the full-precision
percentages `probabilities[i] * 100` taken straight from the vector. -/
theorem format_trim_round_boundary (p : List ℚ) (d : PredDict)
    (hget : get_predictions_dict p = some d) :
    (formatSuccess d).top_condition = d.top_condition.trim ∧
    (formatSuccess d).all_conditions =
      d.all_conditions.map (fun kv => (kv.1.trim, round2 kv.2)) ∧
    d.all_conditions = d.sorted_predictions ∧
    d.sorted_predictions.Sorted descBySnd ∧
    ∀ kv ∈ d.sorted_predictions, ∃ i, i < p.length ∧
      index_to_label i = some kv.1 ∧ kv.2 = p.getD i 0 * 100 := by
  obtain ⟨pairs, top, rest, hpairs, hsort, _, _, hac, hsp⟩ :=
    get_predictions_dict_inv p d hget
  refine ⟨rfl, rfl, by rw [hac, hsp], get_predictions_dict_sorted p d hget, ?_⟩
  intro kv hkv
  rw [hsp, ← hsort] at hkv
  have hkv2 : kv ∈ pairs := (List.perm_insertionSort descBySnd pairs).mem_iff.mp hkv
  obtain ⟨i, hi, hlab, hval⟩ := labelPairs_mem p hpairs hkv2
  exact ⟨i, List.mem_range.mp hi, hlab, hval⟩

/-- Witness for C7 at the example vector. -/
theorem format_trim_round_boundary_witness :
    get_predictions_dict exampleProbs = some exampleDict ∧
    ((formatSuccess exampleDict).top_condition = exampleDict.top_condition.trim ∧
      (formatSuccess exampleDict).all_conditions =
        exampleDict.all_conditions.map (fun kv => (kv.1.trim, round2 kv.2)) ∧
      exampleDict.all_conditions = exampleDict.sorted_predictions ∧
      exampleDict.sorted_predictions.Sorted descBySnd ∧
      ∀ kv ∈ exampleDict.sorted_predictions, ∃ i, i < exampleProbs.length ∧
        index_to_label i = some kv.1 ∧ kv.2 = exampleProbs.getD i 0 * 100) :=
  ⟨example_eval, format_trim_round_boundary exampleProbs exampleDict example_eval⟩

/-- Claim C5: when the skin gate fails on the decoded image, the analyze
handler answers 400 with `{"error": "No skin detected in the image"}`, the
handle state is untouched, and the result does not depend on the loader or
classifier (no inference or ranking happens). -/
theorem no_skin_terminates_400 (loader : Except String Classifier)
    (model : Option Classifier) (img : DecodedImage)
    (hgate : detect_skin_in_image img.height img.width img.hsv = false) :
    analyze_skin loader model img =
      (HttpResult.err 400 "No skin detected in the image", model) := by
  simp [analyze_skin, predict_classes, hgate]

/-- Witness for C5 on a concrete skin-free image. -/
theorem no_skin_terminates_400_witness :
    detect_skin_in_image noSkinDecoded.height noSkinDecoded.width noSkinDecoded.hsv
      = false ∧
    analyze_skin (Except.ok stubClassifier) none noSkinDecoded =
      (HttpResult.err 400 "No skin detected in the image", none) :=
  ⟨by decide,
    no_skin_terminates_400 (Except.ok stubClassifier) none noSkinDecoded (by decide)⟩

/-- Counterexample to claim C4 as stated: on a skin-positive image with a
failing loader, the handler returns status 400 — a client-error status —
and the message leaks the loader's internal detail, not a generic
500-equivalent error. -/
theorem model_load_failure_counterexample :
    detect_skin_in_image skinDecoded.height skinDecoded.width skinDecoded.hsv = true ∧
    (analyze_skin (Except.error "boom") none skinDecoded).1 =
      HttpResult.err 400 "Model loading failed: boom" := by
  constructor <;> decide

/-- Claim C4 as amended: a model-loading failure never crashes the request
— it is always caught and surfaced as an error response — but that
response has status 400 (a client-error status) and its message embeds the
loader's detail as `"Model loading failed: <detail>"`. -/
theorem model_load_failure_behavior (img : DecodedImage) (e : String)
    (hgate : detect_skin_in_image img.height img.width img.hsv = true) :
    analyze_skin (Except.error e) none img =
      (HttpResult.err 400 ("Model loading failed: " ++ e), none) := by
  simp [analyze_skin, predict_classes, load_model, hgate]

/-- Witness for the amended C4 on a concrete skin-positive image. -/
theorem model_load_failure_behavior_witness :
    detect_skin_in_image skinDecoded.height skinDecoded.width skinDecoded.hsv = true ∧
    analyze_skin (Except.error "missing artifact") none skinDecoded =
      (HttpResult.err 400 "Model loading failed: missing artifact", none) :=
  ⟨by decide, model_load_failure_behavior skinDecoded "missing artifact" (by decide)⟩

/-- Claim C9: `load_model` is lazy and at-most-once: an already-set handle
is returned unchanged without consulting the loader, a `None` handle
triggers exactly one load (set on success, left `None` with the raised
`ValueError` on failure), and no request operation ever resets a set
handle. -/
theorem load_model_lazy_at_most_once :
    (∀ (loader : Except String Classifier) (m : Classifier),
        load_model loader (some m) = (Except.ok m, some m)) ∧
    (∀ m : Classifier, load_model (Except.ok m) none = (Except.ok m, some m)) ∧
    (∀ e : String, load_model (Except.error e) none =
        (Except.error ("Model loading failed: " ++ e), none)) ∧
    (∀ (loader : Except String Classifier) (m : Classifier) (img : DecodedImage),
        (analyze_skin loader (some m) img).2 = some m) := by
  refine ⟨fun _ _ => rfl, fun _ => rfl, fun _ => rfl, ?_⟩
  intro loader m img
  cases hg : detect_skin_in_image img.height img.width img.hsv with
  | false => simp [analyze_skin, predict_classes, hg]
  | true =>
    simp only [analyze_skin, predict_classes, load_model, hg]
    cases hres : get_predictions_dict (m (preprocess_for_model img.rgb)) <;>
      simp [hres]
